import Mathlib

/-!
# Verification of the PyPNMGui browser dashboard (UTSC live-monitoring client)

A shallow embedding of the client-side logic in
`src/frontend/static/js/app.js` (the second, authoritative `createApp`
block starting near line 560), covering:

* the CMTS list filter (`filterCmtsList`),
* the UTSC measurement control methods (`startUtsc`, `stopUtsc`,
  `pollUtscStatus`, `fetchUtscData`),
* the live-monitoring lifecycle (`toggleUtscLiveMode`,
  `startUtscWebSocket`, `stopUtscWebSocket`, the WebSocket message and
  close handlers, the 50 s auto-restart interval),
* the JSON request bodies sent to the GUI proxy (`loadSystemInfo` and
  the UTSC endpoints).

Methods are modelled as pure functions from the relevant slice of the
Vue component state (plus the outcome of any awaited `fetch`, which is
external input) to a new state together with a list of observable
effects (toasts, HTTP requests, timer registrations, chart operations).
JavaScript truthiness of the fields involved (`undefined`, `null`, `""`
and `0` are falsy) is modelled explicitly by the `js*` helpers.
-/

/-- JS `v || d` where `v` is a possibly-`undefined` string field
(`undefined` and `""` are falsy). -/
def jsOr (v : Option String) (d : String) : String :=
  match v with
  | none => d
  | some s => if s = "" then d else s

/-- JS `v || d` for a plain string variable (`""` is falsy). -/
def jsOrS (v d : String) : String :=
  if v = "" then d else v

/-- JS `v || d` for a number (`0` is falsy). -/
def jsOrNat (v d : Nat) : Nat :=
  if v = 0 then d else v

/-- JS truthiness of a possibly-`null`/`undefined` number (`0` falsy). -/
def jsTruthyNat (v : Option Nat) : Bool :=
  match v with
  | none => false
  | some n => n != 0

/-- JS truthiness of a possibly-`undefined` string (`""` falsy). -/
def jsTruthyStr (v : Option String) : Bool :=
  match v with
  | none => false
  | some s => s != ""

/-- JS `String.prototype.toLowerCase`, at the character-list level. -/
def jsToLower (s : String) : List Char :=
  s.data.map Char.toLower

/-- JS `String.prototype.includes` on character lists: scan for the
needle as a contiguous substring. -/
def listIncludes : List Char → List Char → Bool
  | [], needle => needle.isEmpty
  | h :: t, needle => needle.isPrefixOf (h :: t) || listIncludes t needle

/-- One entry of the transformed CMTS list (`loadCmtsList`): `name`,
`alias` (modelled as `aliasName`; `alias` is a Lean keyword), `ip`,
`vendor`.  The `type` field is never read by `filterCmtsList` and is
omitted. -/
structure Cmts where
  name : String
  aliasName : String
  ip : String
  vendor : String
deriving DecidableEq, Repr

/-- The predicate applied to each entry in `filterCmtsList`'s
`Array.prototype.filter` callback: one of the four fields, lowercased,
contains the lowercased search text. -/
def cmtsMatchesSearch (search : List Char) (cmts : Cmts) : Bool :=
  listIncludes (jsToLower cmts.name) search ||
  listIncludes (jsToLower cmts.aliasName) search ||
  listIncludes (jsToLower cmts.ip) search ||
  listIncludes (jsToLower cmts.vendor) search

/-- The slice of component state read and written by `filterCmtsList`. -/
structure CmtsListState where
  cmtsSearch : String
  cmtsList : List Cmts
  cmtsListFull : List Cmts
deriving Repr

/-- `filterCmtsList` (app.js lines 768-780): with an empty search the
full list is assigned; otherwise `cmtsList` is assigned the filtered
`cmtsListFull`. -/
def filterCmtsList (st : CmtsListState) : CmtsListState :=
  if st.cmtsSearch = "" then
    { st with cmtsList := st.cmtsListFull }
  else
    let search := jsToLower st.cmtsSearch
    { st with cmtsList := st.cmtsListFull.filter (fun cmts => cmtsMatchesSearch search cmts) }

/-! ## UTSC data model (second `createApp` block, data() at app.js 560-670) -/

/-- The fields of a selected modem record that the UTSC methods read.
`Option` models fields that may be absent (`undefined`). -/
structure Modem where
  mac_address : String
  ip_address : String
  cmts_ip : Option String
  cmts_community : Option String
  tftp_ip : Option String
deriving DecidableEq, Repr

/-- `utscConfig` (app.js 623-632). -/
structure UtscConfig where
  triggerMode : Nat
  centerFreqMhz : Nat
  spanMhz : Nat
  numBins : Nat
  rfPortIfindex : Option Nat
  repeatPeriodMs : Nat
  freerunDurationMs : Nat
  triggerCount : Nat
deriving DecidableEq, Repr

/-- The initial `utscConfig` literal from data(). -/
def utscConfigInit : UtscConfig :=
  { triggerMode := 2, centerFreqMhz := 50, spanMhz := 80, numBins := 3200,
    rfPortIfindex := none, repeatPeriodMs := 1000, freerunDurationMs := 55000,
    triggerCount := 10 }

/-- A JSON value as placed in a request body. -/
inductive JsonVal
  | str (s : String)
  | num (n : Nat)
  | nullV
deriving DecidableEq, Repr

/-- Identifies which timer a `setTimeout`/`setInterval` registration
belongs to. -/
inductive TimerTag
  | reconnect
  | autoRestart
  | pollStatus
  | livePoll
deriving DecidableEq, Repr

/-- Observable effects of one method run: toasts, HTTP requests issued
via `fetch`, timer registrations, WebSocket and chart operations.
Console logging is not modelled. -/
inductive Effect
  | toastSuccess (msg : String)
  | toastInfo (msg : String)
  | toastWarning (msg : String)
  | toastError (msg : String)
  | request (path : String) (body : List (String × JsonVal))
  | sleep (ms : Nat)
  | setTimeoutE (ms : Nat) (tag : TimerTag)
  | setIntervalE (ms : Nat) (tag : TimerTag)
  | clearIntervalE (tag : TimerTag)
  | wsConnect (url : String)
  | wsCloseE
  | chartInit
  | chartUpdate
  | renderChart
  | destroyChart
deriving DecidableEq, Repr

/-- Parsed JSON of a `/utsc/start` response as read by `startUtsc`. -/
structure StartResult where
  success : Bool
  error : Option String
  dataMessage : Option String
deriving DecidableEq, Repr

/-- Parsed JSON of a `/utsc/stop` response as read by `stopUtsc`. -/
structure StopResult where
  success : Bool
  message : Option String
deriving DecidableEq, Repr

/-- Parsed JSON of a `/utsc/status` response as read by
`pollUtscStatus` (absent flags read as falsy). -/
structure StatusResult where
  is_ready : Bool
  is_error : Bool
  is_busy : Bool
deriving DecidableEq, Repr

/-- Frequency/amplitude arrays of one capture frame. -/
structure RawData where
  frequencies : List Int
  amplitudes : List Int
deriving DecidableEq, Repr

/-- The `data` object of a `/utsc/data` response. -/
structure SpectrumData where
  raw_data : Option RawData
deriving DecidableEq, Repr

/-- The `plot` object of a response or frame: base64 image data plus
filename. -/
structure PlotPayload where
  data : String
  filename : String
deriving DecidableEq, Repr

/-- The stored `utscPlotImage`: plot payload plus the `_timestamp`
field added on assignment. -/
structure PlotImage where
  data : String
  filename : String
  timestamp : Nat
deriving DecidableEq, Repr

/-- Parsed JSON of a `/utsc/data` response as read by `fetchUtscData`. -/
structure UtscDataResult where
  success : Bool
  data : Option SpectrumData
  plot : Option PlotPayload
  message : Option String
  error : Option String
deriving DecidableEq, Repr

/-- Outcome of an awaited `fetch(...)` + `response.json()`:
either a parsed value or a thrown error (network or parse). -/
inductive FetchOutcome (α : Type)
  | ok (result : α)
  | thrown
deriving DecidableEq, Repr

/-- The slice of the Vue component state that the UTSC methods read and
write.  Object references that the code only tests for presence
(`utscWebSocket`, the interval handles, the SciChart instance and
series) are modelled as Booleans. -/
structure AppState where
  selectedModem : Option Modem
  selectedCmts : String
  snmpCommunityRW : String
  snmpCommunityModem : String
  utscConfig : UtscConfig
  runningUtsc : Bool
  utscStatus : Option StatusResult
  utscLiveMode : Bool
  utscSpectrumData : Option SpectrumData
  utscPlotImage : Option PlotImage
  utscBufferSize : Nat
  utscRefreshRate : Nat
  utscDuration : Nat
  utscInteractive : Bool
  utscLastUpdateTime : Nat
  utscUpdateThrottle : Nat
  utscSciChart : Bool
  utscSciChartSeries : Bool
  utscWebSocket : Bool
  utscLiveInterval : Bool
  utscAutoRestartInterval : Bool
deriving DecidableEq, Repr

/-- The initial data() values of the modelled fields. -/
def appStateInit : AppState :=
  { selectedModem := none, selectedCmts := "",
    snmpCommunityRW := "Z1gg0Sp3c1@l", snmpCommunityModem := "z1gg0m0n1t0r1ng",
    utscConfig := utscConfigInit, runningUtsc := false, utscStatus := none,
    utscLiveMode := false, utscSpectrumData := none, utscPlotImage := none,
    utscBufferSize := 0, utscRefreshRate := 500, utscDuration := 60,
    utscInteractive := true, utscLastUpdateTime := 0, utscUpdateThrottle := 100,
    utscSciChart := false, utscSciChartSeries := false, utscWebSocket := false,
    utscLiveInterval := false, utscAutoRestartInterval := false }

/-! ## Request builders (URL paths and JSON bodies) -/

def startUtscPath (mac : String) : String :=
  "/api/pypnm/upstream/utsc/start/" ++ mac

def stopUtscPath (mac : String) : String :=
  "/api/pypnm/upstream/utsc/stop/" ++ mac

def utscStatusPath (mac : String) : String :=
  "/api/pypnm/upstream/utsc/status/" ++ mac

def utscDataPath (mac : String) : String :=
  "/api/pypnm/upstream/utsc/data/" ++ mac

def channelStatsPath (mac : String) : String :=
  "/api/pypnm/modem/" ++ mac ++ "/channel-stats"

/-- JSON value of a possibly-`null` numeric field
(`utscConfig.rfPortIfindex` is initialised to `null`, which
`JSON.stringify` keeps). -/
def jsonOfOptNat (v : Option Nat) : JsonVal :=
  match v with
  | none => JsonVal.nullV
  | some n => JsonVal.num n

/-- A body field whose value may be `undefined`: `JSON.stringify` drops
such keys entirely. -/
def jsonOptStrField (k : String) (v : Option String) : List (String × JsonVal) :=
  match v with
  | none => []
  | some s => [(k, JsonVal.str s)]

/-- Body of the `startUtsc` POST (app.js 1483-1491). -/
def startUtscBody (modem : Modem) (cfg : UtscConfig) (cmtsIp : String) :
    List (String × JsonVal) :=
  [("cmts_ip", JsonVal.str cmtsIp),
   ("rf_port_ifindex", jsonOfOptNat cfg.rfPortIfindex),
   ("community", JsonVal.str (jsOr modem.cmts_community "Z1gg0Sp3c1@l"))] ++
  jsonOptStrField "tftp_ip" modem.tftp_ip ++
  [("repeat_period_ms", JsonVal.num (jsOrNat cfg.repeatPeriodMs 1000)),
   ("freerun_duration_ms", JsonVal.num (jsOrNat cfg.freerunDurationMs 55000)),
   ("trigger_count", JsonVal.num (jsOrNat cfg.triggerCount 10))]

/-- Body of the `stopUtsc` POST (app.js 1531-1535). -/
def stopUtscBody (modem : Modem) (cfg : UtscConfig) : List (String × JsonVal) :=
  jsonOptStrField "cmts_ip" modem.cmts_ip ++
  [("rf_port_ifindex", jsonOfOptNat cfg.rfPortIfindex),
   ("community", JsonVal.str (jsOr modem.cmts_community "Z1gg0Sp3c1@l"))]

/-- Body of the `pollUtscStatus` POST (app.js 1565-1569). -/
def utscStatusBody (modem : Modem) (cfg : UtscConfig) : List (String × JsonVal) :=
  jsonOptStrField "cmts_ip" modem.cmts_ip ++
  [("rf_port_ifindex", jsonOfOptNat cfg.rfPortIfindex),
   ("community", JsonVal.str (jsOr modem.cmts_community "Z1gg0@LL"))]

/-- Body of the `fetchUtscData` POST (app.js 1673-1677). -/
def utscDataBody (modem : Modem) (cfg : UtscConfig) : List (String × JsonVal) :=
  jsonOptStrField "cmts_ip" modem.cmts_ip ++
  [("rf_port_ifindex", jsonOfOptNat cfg.rfPortIfindex),
   ("community", JsonVal.str (jsOr modem.cmts_community "Z1gg0Sp3c1@l"))]

/-- Body of the `loadSystemInfo` channel-stats POST (app.js 935-941):
the community comes from the `snmpCommunityModem` setting, with its own
fixed fallback. -/
def channelStatsBody (modem : Modem) (snmpCommunityModem : String) :
    List (String × JsonVal) :=
  [("modem_ip", JsonVal.str modem.ip_address),
   ("community", JsonVal.str (jsOrS snmpCommunityModem "z1gg0m0n1t0r1ng"))]

/-- Look a field up in a JSON body. -/
def bodyLookup (body : List (String × JsonVal)) (k : String) : Option JsonVal :=
  (body.find? (fun p => p.1 == k)).map (fun p => p.2)

/-! ## UTSC methods -/

/-- `destroyUtscSciChart` (app.js 2027-2037): deletes the chart and
nulls both references, only when an instance exists. -/
def destroyUtscSciChart (st : AppState) : AppState × List Effect :=
  if st.utscSciChart then
    ({ st with utscSciChart := false, utscSciChartSeries := false }, [Effect.destroyChart])
  else (st, [])

/-- `stopUtscWebSocket` (app.js 1884-1896): close and null any open
socket, clear the legacy polling interval, destroy the chart. -/
def stopUtscWebSocket (st : AppState) : AppState × List Effect :=
  let p1 : AppState × List Effect :=
    if st.utscWebSocket then ({ st with utscWebSocket := false }, [Effect.wsCloseE])
    else (st, [])
  let p2 : AppState × List Effect :=
    if p1.1.utscLiveInterval then
      ({ p1.1 with utscLiveInterval := false }, p1.2 ++ [Effect.clearIntervalE TimerTag.livePoll])
    else p1
  let p3 := destroyUtscSciChart p2.1
  (p3.1, p2.2 ++ p3.2)

/-- The WebSocket URL built in `startUtscWebSocket` (app.js 1783),
without the scheme/host prefix; JS template interpolation renders
`null`/`undefined` as those literal words. -/
def wsUtscUrl (modem : Modem) (st : AppState) : String :=
  "/ws/utsc/" ++ modem.mac_address ++
  "?refresh=" ++ toString st.utscRefreshRate ++
  "&duration=" ++ toString st.utscDuration ++
  "&rf_port=" ++ (match st.utscConfig.rfPortIfindex with
    | none => "null"
    | some n => toString n) ++
  "&cmts_ip=" ++ (match modem.cmts_ip with
    | none => "undefined"
    | some s => s) ++
  "&community=" ++ jsOr modem.cmts_community (jsOrS st.snmpCommunityRW "Z1gg0Sp3c1@l")

/-- `startUtscWebSocket` (app.js 1769-1882): bail out without a modem;
otherwise always close any previous connection first, then open a new
one.  The `onopen`/`onmessage`/`onclose` handlers are modelled
separately. -/
def startUtscWebSocket (st : AppState) : AppState × List Effect :=
  match st.selectedModem with
  | none => (st, [])
  | some modem =>
    let p := stopUtscWebSocket st
    ({ p.1 with utscWebSocket := true }, p.2 ++ [Effect.wsConnect (wsUtscUrl modem p.1)])

/-- `fetchUtscData` (app.js 1663-1718).  `now` is `Date.now()` at the
plot-image assignment.  The chart-initialisation `$nextTick` callback
is modelled as succeeding (it only runs when no chart exists yet).
Every path ends with `runningUtsc := false` (the `finally` block; the
two early returns set it explicitly). -/
def fetchUtscData (st : AppState) (o : FetchOutcome UtscDataResult) (now : Nat) :
    AppState × List Effect :=
  match st.selectedModem with
  | none => ({ st with runningUtsc := false }, [])
  | some modem =>
    if !(jsTruthyStr modem.cmts_ip) then ({ st with runningUtsc := false }, [])
    else
      let reqFx : Effect :=
        Effect.request (utscDataPath modem.mac_address) (utscDataBody modem st.utscConfig)
      match o with
      | FetchOutcome.thrown =>
        ({ st with runningUtsc := false },
          [reqFx] ++ (if st.utscLiveMode then [] else [Effect.toastError "Failed to fetch UTSC data"]))
      | FetchOutcome.ok result =>
        if result.success && result.data.isSome then
          let st1 := { st with
            utscSpectrumData := result.data,
            utscPlotImage := result.plot.map (fun p : PlotPayload => PlotImage.mk p.data p.filename now) }
          let chartFx : List Effect :=
            if st1.utscSciChart then []
            else
              [Effect.chartInit] ++
                (match result.data with
                 | some sd => (match sd.raw_data with
                   | some _ => [Effect.chartUpdate]
                   | none => [])
                 | none => [])
          let st2 :=
            if st1.utscSciChart then st1
            else { st1 with utscSciChart := true, utscSciChartSeries := true }
          ({ st2 with runningUtsc := false },
            [reqFx] ++ chartFx ++
              (if st2.utscLiveMode then [] else [Effect.toastSuccess "UTSC spectrum data loaded"]))
        else
          ({ st with runningUtsc := false },
            [reqFx,
             Effect.toastError (jsOr result.message (jsOr result.error "Failed to fetch UTSC data"))])

/-- `startUtsc` (app.js 1453-1517).  `o` is the outcome of the start
POST; `fo` that of the nested `fetchUtscData` POST on the success path;
`now` is `Date.now()` inside `fetchUtscData`. -/
def startUtsc (st : AppState) (o : FetchOutcome StartResult)
    (fo : FetchOutcome UtscDataResult) (now : Nat) : AppState × List Effect :=
  match st.selectedModem with
  | none => (st, [Effect.toastWarning "Please select a modem first"])
  | some modem =>
    if !(jsTruthyNat st.utscConfig.rfPortIfindex) then
      (st, [Effect.toastWarning "Please select an RF Port"])
    else
      let cmtsIp := jsOr modem.cmts_ip st.selectedCmts
      if cmtsIp = "" then (st, [Effect.toastError "CMTS IP not available"])
      else
        let st1 := { st with runningUtsc := true, utscStatus := none }
        let fx0 : List Effect :=
          [Effect.toastInfo "UTSC capture in progress - this may take up to 2 minutes...",
           Effect.request (startUtscPath modem.mac_address)
             (startUtscBody modem st.utscConfig cmtsIp)]
        match o with
        | FetchOutcome.thrown =>
          ({ st1 with runningUtsc := false }, fx0 ++ [Effect.toastError "Failed to start UTSC"])
        | FetchOutcome.ok result =>
          if result.success then
            let message := jsOr result.dataMessage "UTSC completed"
            let p := fetchUtscData st1 fo now
            ({ p.1 with runningUtsc := false },
              fx0 ++ [Effect.toastInfo (message ++ " - fetching spectrum data..."),
                      Effect.sleep 2000] ++ p.2)
          else
            ({ st1 with runningUtsc := false },
              fx0 ++ [Effect.toastError (jsOr result.error "Failed to start UTSC")])

/-- `stopUtsc` (app.js 1519-1556). -/
def stopUtsc (st : AppState) (o : FetchOutcome StopResult) : AppState × List Effect :=
  match st.selectedModem with
  | none => (st, [Effect.toastWarning "No active UTSC session to stop"])
  | some modem =>
    if !(jsTruthyStr modem.cmts_ip) || !(jsTruthyNat st.utscConfig.rfPortIfindex) then
      (st, [Effect.toastWarning "No active UTSC session to stop"])
    else
      let fx0 : List Effect :=
        [Effect.toastInfo "Stopping UTSC capture...",
         Effect.request (stopUtscPath modem.mac_address) (stopUtscBody modem st.utscConfig)]
      match o with
      | FetchOutcome.thrown =>
        ({ st with runningUtsc := false }, fx0 ++ [Effect.toastError "Failed to stop UTSC"])
      | FetchOutcome.ok result =>
        let st1 := { st with runningUtsc := false }
        if result.success then
          if st1.utscLiveMode then
            let p := stopUtscWebSocket { st1 with utscLiveMode := false }
            (p.1, fx0 ++ [Effect.toastSuccess "UTSC capture stopped"] ++ p.2)
          else (st1, fx0 ++ [Effect.toastSuccess "UTSC capture stopped"])
        else
          (st1, fx0 ++ [Effect.toastError (jsOr result.message "Failed to stop UTSC")])

/-- `pollUtscStatus` (app.js 1558-1591).  With no running measurement
nothing happens; with no selected modem the property access throws
inside the `try`, so the catch clears the flag and no request is ever
issued. -/
def pollUtscStatus (st : AppState) (o : FetchOutcome StatusResult)
    (fo : FetchOutcome UtscDataResult) (now : Nat) : AppState × List Effect :=
  if st.runningUtsc = false then (st, [])
  else
    match st.selectedModem with
    | none => ({ st with runningUtsc := false }, [])
    | some modem =>
      let reqFx : Effect :=
        Effect.request (utscStatusPath modem.mac_address) (utscStatusBody modem st.utscConfig)
      match o with
      | FetchOutcome.thrown => ({ st with runningUtsc := false }, [reqFx])
      | FetchOutcome.ok result =>
        let st1 := { st with utscStatus := some result }
        if result.is_ready then
          let p := fetchUtscData { st1 with runningUtsc := false } fo now
          (p.1, [reqFx, Effect.toastSuccess "UTSC capture complete - fetching data..."] ++ p.2)
        else if result.is_error then
          ({ st1 with runningUtsc := false }, [reqFx, Effect.toastError "UTSC test failed"])
        else if result.is_busy then
          (st1, [reqFx, Effect.setTimeoutE 2000 TimerTag.pollStatus])
        else (st1, [reqFx])

/-! ## WebSocket handlers and live-mode lifecycle -/

/-- A parsed (or unparseable) WebSocket frame, dispatched on its JSON
`type` field. -/
inductive WsMessage
  | spectrum (buffer_size : Option Nat) (raw_data : Option RawData)
      (plot : Option PlotPayload) (timestamp : Nat)
  | buffering (buffer_size : Option Nat) (message : Option String)
  | bufferingComplete (message : String)
  | heartbeat (buffer_size : Option Nat)
  | errorMsg (message : String)
  | connected (message : String)
  | unparseable
deriving DecidableEq, Repr

/-- `if (data.buffer_size !== undefined) this.utscBufferSize = ...`. -/
def updateBufferSize (st : AppState) (b : Option Nat) : AppState :=
  match b with
  | none => st
  | some n => { st with utscBufferSize := n }

/-- The `onmessage` handler installed by `startUtscWebSocket`
(app.js 1795-1859).  `now` is `Date.now()` at the throttle check. -/
def utscOnMessage (st : AppState) (msg : WsMessage) (now : Nat) : AppState × List Effect :=
  match msg with
  | WsMessage.spectrum b raw plot ts =>
    let st1 := updateBufferSize st b
    if now - st1.utscLastUpdateTime < st1.utscUpdateThrottle then (st1, [])
    else
      let st2 := { st1 with utscLastUpdateTime := now }
      let fx1 : List Effect :=
        if st2.utscInteractive && raw.isSome then [Effect.chartUpdate] else []
      match plot with
      | some p =>
        let st3 := { st2 with utscPlotImage := some (PlotImage.mk p.data p.filename ts) }
        (st3, fx1 ++ (if st3.utscInteractive then [] else [Effect.renderChart]))
      | none => (st2, fx1)
  | WsMessage.buffering b _ => (updateBufferSize st b, [])
  | WsMessage.bufferingComplete m => (st, [Effect.toastSuccess m])
  | WsMessage.heartbeat b => (updateBufferSize st b, [])
  | WsMessage.errorMsg _ => (st, [])
  | WsMessage.connected _ => (st, [])
  | WsMessage.unparseable => (st, [])

/-- The `onclose` handler (app.js 1866-1877): schedule one reconnect
attempt 2000 ms later, but only while live mode is on. -/
def utscOnClose (st : AppState) : AppState × List Effect :=
  if st.utscLiveMode then (st, [Effect.setTimeoutE 2000 TimerTag.reconnect]) else (st, [])

/-- The body of that scheduled reconnect timer: reconnect only if live
mode is still active when the timer fires. -/
def utscReconnectTimerFire (st : AppState) : AppState × List Effect :=
  if st.utscLiveMode then startUtscWebSocket st else (st, [])

/-- `toggleUtscLiveMode` (app.js 1720-1767).  `chartInitSucceeds`
abstracts the asynchronous SciChart library initialisation attempted
when no chart exists yet. -/
def toggleUtscLiveMode (st : AppState) (chartInitSucceeds : Bool) : AppState × List Effect :=
  let st0 := { st with utscLiveMode := !st.utscLiveMode }
  if st0.utscLiveMode then
    let p1 : AppState × List Effect :=
      if st0.utscSciChart then (st0, [])
      else
        ({ st0 with utscSciChart := chartInitSucceeds, utscSciChartSeries := chartInitSucceeds },
          [Effect.chartInit])
    if !(p1.1.utscSciChart) || !(p1.1.utscSciChartSeries) then
      ({ p1.1 with utscLiveMode := false }, p1.2 ++ [Effect.toastError "Failed to initialize chart"])
    else
      let p2 := startUtscWebSocket p1.1
      ({ p2.1 with utscAutoRestartInterval := true },
        p1.2 ++ [Effect.toastSuccess "Live monitoring started (auto-restarts every 50s)"] ++
          p2.2 ++ [Effect.setIntervalE 50000 TimerTag.autoRestart])
  else
    let p1 := stopUtscWebSocket st0
    let p2 : AppState × List Effect :=
      if p1.1.utscAutoRestartInterval then
        ({ p1.1 with utscAutoRestartInterval := false }, [Effect.clearIntervalE TimerTag.autoRestart])
      else (p1.1, [])
    (p2.1, [Effect.toastInfo "Live monitoring stopped"] ++ p1.2 ++ p2.2)

/-- The callback registered with `setInterval(..., 50000)` in
`toggleUtscLiveMode` (app.js 1749-1754): restart the capture only while
live mode is on and no measurement is in progress. -/
def utscAutoRestartFire (st : AppState) (o : FetchOutcome StartResult)
    (fo : FetchOutcome UtscDataResult) (now : Nat) : AppState × List Effect :=
  if st.utscLiveMode && !st.runningUtsc then startUtsc st o fo now else (st, [])

/-! ## Effect classifiers -/

def Effect.isReq : Effect → Bool
  | Effect.request _ _ => true
  | _ => false

def Effect.isTimerSchedule : Effect → Bool
  | Effect.setTimeoutE _ _ => true
  | Effect.setIntervalE _ _ => true
  | _ => false

def Effect.isErrorOrWarningToast : Effect → Bool
  | Effect.toastError _ => true
  | Effect.toastWarning _ => true
  | _ => false

def Effect.isChartRender : Effect → Bool
  | Effect.chartUpdate => true
  | Effect.renderChart => true
  | _ => false

/-! ## Socket-lifetime state machine (for the single-connection invariant)

`startUtscWebSocket`/`stopUtscWebSocket` manipulate one reference
`this.utscWebSocket`.  To speak about *open connections* we track the
set of sockets the browser still holds open, giving each `new
WebSocket` a fresh id.  A remote close (`onclose`) removes a socket
from the open set but — exactly as in the code — leaves the reference
in place. -/

structure WsSys where
  utscWebSocket : Option Nat
  openSockets : List Nat
  nextId : Nat
deriving DecidableEq, Repr

/-- `stopUtscWebSocket`, socket part: `close()` the referenced socket
and null the reference. -/
def wsStop (s : WsSys) : WsSys :=
  match s.utscWebSocket with
  | some id => { s with openSockets := s.openSockets.erase id, utscWebSocket := none }
  | none => s

/-- `startUtscWebSocket`, socket part: without a modem nothing happens;
otherwise the existing connection is closed first and a fresh socket is
opened and stored. -/
def wsStart (s : WsSys) (hasModem : Bool) : WsSys :=
  if !hasModem then s
  else
    let s1 := wsStop s
    { s1 with utscWebSocket := some s1.nextId,
              openSockets := s1.openSockets ++ [s1.nextId],
              nextId := s1.nextId + 1 }

/-- The remote end (or the browser) closes socket `id`: it is no longer
open, but `onclose` does not null the reference. -/
def wsRemoteClose (s : WsSys) (id : Nat) : WsSys :=
  { s with openSockets := s.openSockets.erase id }

inductive WsOp
  | start (hasModem : Bool)
  | stop
  | remoteClose (id : Nat)
deriving DecidableEq, Repr

def wsStep (s : WsSys) : WsOp → WsSys
  | WsOp.start hasModem => wsStart s hasModem
  | WsOp.stop => wsStop s
  | WsOp.remoteClose id => wsRemoteClose s id

def wsRun (s : WsSys) (ops : List WsOp) : WsSys :=
  ops.foldl wsStep s

/-- Initial socket state: `utscWebSocket: null`, nothing open. -/
def wsInit : WsSys :=
  { utscWebSocket := none, openSockets := [], nextId := 0 }

/-- The single-connection invariant: at most one socket is open, and
any open socket is the one `utscWebSocket` references. -/
def wsInvariant (s : WsSys) : Prop :=
  s.openSockets = [] ∨ ∃ id, s.openSockets = [id] ∧ s.utscWebSocket = some id

/-! ## Trace of chart updates (for the throttling claim)

For a sequence of WebSocket frames, each tagged with its `Date.now()`,
record the arrival times of the frames that actually update the
interactive chart. -/

def chartUpdateTimes (st : AppState) : List (WsMessage × Nat) → List Nat
  | [] => []
  | m :: ms =>
    let p := utscOnMessage st m.1 m.2
    if Effect.chartUpdate ∈ p.2 then m.2 :: chartUpdateTimes p.1 ms
    else chartUpdateTimes p.1 ms

/-- An effect list performs no automatic retry: it schedules no timer
and issues at most one HTTP request. -/
def noAutomaticRetry (fx : List Effect) : Bool :=
  decide (fx.countP Effect.isReq ≤ 1) && fx.all (fun e => !(Effect.isTimerSchedule e))

/-- A concrete modem record whose `cmts_community` field is absent. -/
def modemNoCommunity : Modem :=
  { mac_address := "aa:bb:cc:dd:ee:01", ip_address := "10.1.2.3",
    cmts_ip := some "172.16.0.1", cmts_community := none, tftp_ip := none }

/-!
# Theorems
-/

/-- `listIncludes` decides list-infix containment. -/
theorem listIncludes_iff (hay needle : List Char) :
    listIncludes hay needle = true ↔ needle <:+: hay := by
  induction hay with
  | nil => simp [listIncludes, List.isEmpty_iff, List.infix_nil]
  | cons h t ih =>
    simp [listIncludes, List.infix_cons_iff, List.isPrefixOf_iff_prefix, ih]

/-- C10: `filterCmtsList` sets `cmtsList` to exactly those entries of
`cmtsListFull` whose name, alias, ip or vendor contains the search text
case-insensitively; with an empty search it assigns the whole of
`cmtsListFull`; and `cmtsListFull` itself is never modified. -/
theorem C10_filterCmtsList (st : CmtsListState) :
    (filterCmtsList st).cmtsListFull = st.cmtsListFull ∧
    (filterCmtsList st).cmtsSearch = st.cmtsSearch ∧
    (st.cmtsSearch = "" → (filterCmtsList st).cmtsList = st.cmtsListFull) ∧
    (st.cmtsSearch ≠ "" → ∀ c : Cmts,
      c ∈ (filterCmtsList st).cmtsList ↔
        c ∈ st.cmtsListFull ∧
          (jsToLower st.cmtsSearch <:+: jsToLower c.name ∨
           jsToLower st.cmtsSearch <:+: jsToLower c.aliasName ∨
           jsToLower st.cmtsSearch <:+: jsToLower c.ip ∨
           jsToLower st.cmtsSearch <:+: jsToLower c.vendor)) := by
  refine ⟨?_, ?_, ?_, ?_⟩
  · unfold filterCmtsList; split <;> rfl
  · unfold filterCmtsList; split <;> rfl
  · intro h; simp [filterCmtsList, h]
  · intro h c
    simp only [filterCmtsList, if_neg h, List.mem_filter]
    constructor
    · rintro ⟨hmem, hmatch⟩
      refine ⟨hmem, ?_⟩
      simp only [cmtsMatchesSearch, Bool.or_eq_true, listIncludes_iff] at hmatch
      tauto
    · rintro ⟨hmem, hmatch⟩
      refine ⟨hmem, ?_⟩
      simp only [cmtsMatchesSearch, Bool.or_eq_true, listIncludes_iff]
      tauto

/-- Concrete check of C10: searching `"AB"` keeps exactly the entry
whose name contains `"ab"` after lowercasing. -/
theorem C10_filterCmtsList_witness :
    ("AB" : String) ≠ "" ∧
      ((⟨"cmts-ab-1", "", "10.0.0.1", "casa"⟩ : Cmts) ∈
        (filterCmtsList ⟨"AB", [], [⟨"cmts-ab-1", "", "10.0.0.1", "casa"⟩, ⟨"cmts-xy-2", "", "10.0.0.2", "casa"⟩]⟩).cmtsList) :=
  ⟨by decide,
    ((C10_filterCmtsList ⟨"AB", [], [⟨"cmts-ab-1", "", "10.0.0.1", "casa"⟩, ⟨"cmts-xy-2", "", "10.0.0.2", "casa"⟩]⟩).2.2.2
      (by decide) ⟨"cmts-ab-1", "", "10.0.0.1", "casa"⟩).mpr
      ⟨by decide, Or.inl ((listIncludes_iff _ _).mp (by decide))⟩⟩

/-- `fetchUtscData` always ends with the running flag cleared. -/
theorem fetchUtscData_running_eq_false (st : AppState)
    (o : FetchOutcome UtscDataResult) (now : Nat) :
    (fetchUtscData st o now).1.runningUtsc = false := by
  unfold fetchUtscData
  cases st.selectedModem with
  | none => rfl
  | some modem =>
    dsimp only
    by_cases hip : jsTruthyStr modem.cmts_ip
    · simp only [hip, Bool.not_true, Bool.false_eq_true, if_false]
      cases o with
      | thrown => rfl
      | ok result =>
        dsimp only
        by_cases hs : result.success && result.data.isSome
        · simp only [hs, if_true]
        · simp only [hs, Bool.false_eq_true, if_false]
    · simp [hip]

/-- C9: `fetchUtscData` leaves `runningUtsc` equal to `false` on every
execution path — missing modem or CMTS IP, successful load, non-success
response, and thrown error alike (the `finally` block; the early
returns clear it explicitly) — so a data fetch can never leave the
client stuck in the measurement-running state. -/
theorem C9_fetchUtscData_clears_running (st : AppState)
    (o : FetchOutcome UtscDataResult) (now : Nat) :
    (fetchUtscData st o now).1.runningUtsc = false :=
  fetchUtscData_running_eq_false st o now

/-- Under the single-connection invariant, `stopUtscWebSocket` leaves
no socket open. -/
theorem wsStop_open_nil (s : WsSys) (h : wsInvariant s) :
    (wsStop s).openSockets = [] := by
  rcases h with h | ⟨id, hopen, href⟩
  · unfold wsStop
    cases hws : s.utscWebSocket <;> simp [h]
  · unfold wsStop
    rw [href]
    simp [hopen]

/-- Each socket operation preserves the single-connection invariant. -/
theorem wsStep_invariant (s : WsSys) (op : WsOp) (h : wsInvariant s) :
    wsInvariant (wsStep s op) := by
  cases op with
  | start hasModem =>
    cases hasModem with
    | false => exact h
    | true =>
      right
      refine ⟨(wsStop s).nextId, ?_, rfl⟩
      show (wsStop s).openSockets ++ [(wsStop s).nextId] = [(wsStop s).nextId]
      rw [wsStop_open_nil s h]
      rfl
  | stop =>
    left
    exact wsStop_open_nil s h
  | remoteClose id =>
    rcases h with h | ⟨id', hopen, href⟩
    · left; simp [wsStep, wsRemoteClose, h]
    · by_cases hid : id' = id
      · left; simp [wsStep, wsRemoteClose, hopen, hid]
      · right
        refine ⟨id', ?_, href⟩
        simp [wsStep, wsRemoteClose, hopen, List.erase_cons, hid]

/-- The invariant holds along every trace from the initial state. -/
theorem wsRun_invariant (ops : List WsOp) (s : WsSys) (h : wsInvariant s) :
    wsInvariant (wsRun s ops) := by
  induction ops generalizing s with
  | nil => exact h
  | cons op rest ih => exact ih (wsStep s op) (wsStep_invariant s op h)

/-- C8: for every interleaving of `startUtscWebSocket` /
`stopUtscWebSocket` calls and remote closes, at most one UTSC WebSocket
connection is open, and any open connection is the one the
`utscWebSocket` field references. -/
theorem C8_single_connection (ops : List WsOp) :
    (wsRun wsInit ops).openSockets.length ≤ 1 ∧
    ∀ id ∈ (wsRun wsInit ops).openSockets,
      (wsRun wsInit ops).utscWebSocket = some id := by
  have h := wsRun_invariant ops wsInit (Or.inl rfl)
  rcases h with h | ⟨id, hopen, href⟩
  · rw [h]
    exact ⟨by simp, by simp⟩
  · rw [hopen]
    refine ⟨by simp, ?_⟩
    intro id' hid'
    rw [List.mem_singleton] at hid'
    rw [hid', href]

/-- Concrete check of C8: after a start, a remote drop and a restart,
the single open socket is the referenced one. -/
theorem C8_single_connection_witness :
    (1 : Nat) ∈ (wsRun wsInit [WsOp.start true, WsOp.remoteClose 0, WsOp.start true]).openSockets ∧
    (wsRun wsInit [WsOp.start true, WsOp.remoteClose 0, WsOp.start true]).utscWebSocket = some 1 :=
  ⟨by decide,
    (C8_single_connection [WsOp.start true, WsOp.remoteClose 0, WsOp.start true]).2 1 (by decide)⟩

/-- Whenever `fetchUtscData` gets past its guard (modem selected, CMTS
IP present), it issues exactly the `/utsc/data` POST, on every outcome. -/
theorem fetchUtscData_emits_request (st : AppState) (modem : Modem)
    (o : FetchOutcome UtscDataResult) (now : Nat)
    (hm : st.selectedModem = some modem) (hip : jsTruthyStr modem.cmts_ip = true) :
    Effect.request (utscDataPath modem.mac_address) (utscDataBody modem st.utscConfig) ∈
      (fetchUtscData st o now).2 := by
  unfold fetchUtscData
  rw [hm]
  simp only [hip, Bool.not_true, Bool.false_eq_true, if_false]
  cases o with
  | thrown => simp
  | ok result =>
    dsimp only
    by_cases hs : result.success && result.data.isSome <;> simp [hs]

/-- C6: the status poll is a three-way step: with `is_ready` the flag is
cleared and the data fetch is issued; with `is_error` (and not ready)
the flag is cleared and an error toast shown; with `is_busy` (and
neither) the next poll is scheduled exactly 2000 ms later and the
measurement stays running; and with `runningUtsc` already false no
request is made at all. -/
theorem C6_pollUtscStatus (st : AppState) (modem : Modem) (result : StatusResult)
    (fo : FetchOutcome UtscDataResult) (now : Nat) :
    (st.runningUtsc = false →
      ∀ o : FetchOutcome StatusResult, pollUtscStatus st o fo now = (st, [])) ∧
    (st.runningUtsc = true → st.selectedModem = some modem →
      ((result.is_ready = true → jsTruthyStr modem.cmts_ip = true →
        (pollUtscStatus st (FetchOutcome.ok result) fo now).1.runningUtsc = false ∧
        Effect.request (utscDataPath modem.mac_address) (utscDataBody modem st.utscConfig) ∈
          (pollUtscStatus st (FetchOutcome.ok result) fo now).2) ∧
      (result.is_ready = false → result.is_error = true →
        (pollUtscStatus st (FetchOutcome.ok result) fo now).1.runningUtsc = false ∧
        Effect.toastError "UTSC test failed" ∈
          (pollUtscStatus st (FetchOutcome.ok result) fo now).2) ∧
      (result.is_ready = false → result.is_error = false → result.is_busy = true →
        (pollUtscStatus st (FetchOutcome.ok result) fo now).1.runningUtsc = true ∧
        (pollUtscStatus st (FetchOutcome.ok result) fo now).2 =
          [Effect.request (utscStatusPath modem.mac_address) (utscStatusBody modem st.utscConfig),
           Effect.setTimeoutE 2000 TimerTag.pollStatus]))) := by
  constructor
  · intro hrun o
    simp [pollUtscStatus, hrun]
  · intro hrun hm
    refine ⟨?_, ?_, ?_⟩
    · intro hready hip
      constructor
      · simp only [pollUtscStatus, hrun, hm, hready]
        simp [fetchUtscData_running_eq_false]
      · simp only [pollUtscStatus, hrun, hm, hready]
        simp only [Bool.true_eq_false, if_false, if_true, List.mem_append, List.mem_cons]
        right
        exact fetchUtscData_emits_request _ modem fo now rfl hip
    · intro hready herr
      simp [pollUtscStatus, hrun, hm, hready, herr]
    · intro hready herr hbusy
      simp [pollUtscStatus, hrun, hm, hready, herr, hbusy]

/-- Concrete check of C6: a busy response while running schedules
exactly one follow-up poll 2000 ms later. -/
theorem C6_pollUtscStatus_witness :
    (pollUtscStatus
        { appStateInit with runningUtsc := true, selectedModem := some modemNoCommunity }
        (FetchOutcome.ok ⟨false, false, true⟩) FetchOutcome.thrown 0).2 =
      [Effect.request (utscStatusPath modemNoCommunity.mac_address)
         (utscStatusBody modemNoCommunity utscConfigInit),
       Effect.setTimeoutE 2000 TimerTag.pollStatus] :=
  ((C6_pollUtscStatus
      { appStateInit with runningUtsc := true, selectedModem := some modemNoCommunity }
      modemNoCommunity ⟨false, false, true⟩ FetchOutcome.thrown 0).2
    rfl rfl).2.2 rfl rfl rfl |>.2

/-- C4: in `startUtsc` and `stopUtsc`, every outcome that is not a
success response — a result with `success: false`, or a thrown
fetch/parse error — emits an error or warning toast and leaves
`runningUtsc` false, so the user is informed and can try again. -/
theorem C4_failures_surfaced (st : AppState) (modem : Modem)
    (o : FetchOutcome StartResult) (so : FetchOutcome StopResult)
    (fo : FetchOutcome UtscDataResult) (now : Nat) :
    (st.selectedModem = some modem →
     jsTruthyNat st.utscConfig.rfPortIfindex = true →
     jsOr modem.cmts_ip st.selectedCmts ≠ "" →
     (o = FetchOutcome.thrown ∨ ∃ r, o = FetchOutcome.ok r ∧ r.success = false) →
       (startUtsc st o fo now).1.runningUtsc = false ∧
       ((startUtsc st o fo now).2.any Effect.isErrorOrWarningToast) = true) ∧
    (st.selectedModem = some modem →
     jsTruthyStr modem.cmts_ip = true →
     jsTruthyNat st.utscConfig.rfPortIfindex = true →
     (so = FetchOutcome.thrown ∨ ∃ r, so = FetchOutcome.ok r ∧ r.success = false) →
       (stopUtsc st so).1.runningUtsc = false ∧
       ((stopUtsc st so).2.any Effect.isErrorOrWarningToast) = true) := by
  constructor
  · intro hm hrf hip hfail
    rcases hfail with rfl | ⟨r, rfl, hrs⟩
    · simp [startUtsc, hm, hrf, hip, Effect.isErrorOrWarningToast]
    · simp [startUtsc, hm, hrf, hip, hrs, Effect.isErrorOrWarningToast]
  · intro hm hcip hrf hfail
    rcases hfail with rfl | ⟨r, rfl, hrs⟩
    · simp [stopUtsc, hm, hcip, hrf, Effect.isErrorOrWarningToast]
    · simp [stopUtsc, hm, hcip, hrf, hrs, Effect.isErrorOrWarningToast]

/-- Concrete check of C4: a `success: false` start response clears the
flag and shows an error toast. -/
theorem C4_failures_surfaced_witness :
    (startUtsc
        { appStateInit with selectedModem := some modemNoCommunity,
                            utscConfig := { utscConfigInit with rfPortIfindex := some 7 } }
        (FetchOutcome.ok ⟨false, none, none⟩) FetchOutcome.thrown 0).1.runningUtsc = false ∧
    ((startUtsc
        { appStateInit with selectedModem := some modemNoCommunity,
                            utscConfig := { utscConfigInit with rfPortIfindex := some 7 } }
        (FetchOutcome.ok ⟨false, none, none⟩) FetchOutcome.thrown 0).2.any
      Effect.isErrorOrWarningToast) = true :=
  (C4_failures_surfaced
      { appStateInit with selectedModem := some modemNoCommunity,
                          utscConfig := { utscConfigInit with rfPortIfindex := some 7 } }
      modemNoCommunity (FetchOutcome.ok ⟨false, none, none⟩) FetchOutcome.thrown
      FetchOutcome.thrown 0).1
    rfl (by decide) (by decide)
    (Or.inr ⟨⟨false, none, none⟩, rfl, rfl⟩)

/-- C2: the only automatic retry is the WebSocket reconnect-on-drop:
`onclose` schedules a single 2000 ms reconnect timer only while live
mode is on, the timer reconnects only if live mode is still on when it
fires, and a failed fetch in `startUtsc`, `stopUtsc`, `fetchUtscData`
or `pollUtscStatus` issues no further request and schedules no timer. -/
theorem C2_reconnect_only (st : AppState) (fo : FetchOutcome UtscDataResult) (now : Nat) :
    (st.utscLiveMode = true →
      utscOnClose st = (st, [Effect.setTimeoutE 2000 TimerTag.reconnect])) ∧
    (st.utscLiveMode = false → utscOnClose st = (st, [])) ∧
    (st.utscLiveMode = false → utscReconnectTimerFire st = (st, [])) ∧
    (st.utscLiveMode = true → utscReconnectTimerFire st = startUtscWebSocket st) ∧
    noAutomaticRetry (startUtsc st FetchOutcome.thrown fo now).2 = true ∧
    noAutomaticRetry (stopUtsc st FetchOutcome.thrown).2 = true ∧
    noAutomaticRetry (fetchUtscData st FetchOutcome.thrown now).2 = true ∧
    noAutomaticRetry (pollUtscStatus st FetchOutcome.thrown fo now).2 = true := by
  refine ⟨?_, ?_, ?_, ?_, ?_, ?_, ?_, ?_⟩
  · intro h; simp [utscOnClose, h]
  · intro h; simp [utscOnClose, h]
  · intro h; simp [utscReconnectTimerFire, h]
  · intro h; simp [utscReconnectTimerFire, h]
  · unfold startUtsc
    cases st.selectedModem with
    | none => rfl
    | some modem =>
      dsimp only
      by_cases hrf : jsTruthyNat st.utscConfig.rfPortIfindex
      · simp only [hrf, Bool.not_true, Bool.false_eq_true, if_false]
        by_cases hip : jsOr modem.cmts_ip st.selectedCmts = ""
        · simp [hip, noAutomaticRetry, Effect.isReq, Effect.isTimerSchedule, List.countP_cons, List.countP_nil]
        · simp [hip, noAutomaticRetry, Effect.isReq, Effect.isTimerSchedule]
      · simp [hrf, noAutomaticRetry, Effect.isReq, Effect.isTimerSchedule, List.countP_cons, List.countP_nil]
  · unfold stopUtsc
    cases st.selectedModem with
    | none => rfl
    | some modem =>
      dsimp only
      by_cases hg : (!(jsTruthyStr modem.cmts_ip) || !(jsTruthyNat st.utscConfig.rfPortIfindex)) = true
      · simp [hg, noAutomaticRetry, Effect.isReq, Effect.isTimerSchedule, List.countP_cons, List.countP_nil]
      · simp only [hg, if_false]
        simp [noAutomaticRetry, Effect.isReq, Effect.isTimerSchedule]
  · unfold fetchUtscData
    cases st.selectedModem with
    | none => rfl
    | some modem =>
      dsimp only
      by_cases hip : jsTruthyStr modem.cmts_ip
      · by_cases hl : st.utscLiveMode <;>
          simp [hip, hl, noAutomaticRetry, Effect.isReq, Effect.isTimerSchedule]
      · simp [hip, noAutomaticRetry, Effect.isReq, Effect.isTimerSchedule, List.countP_cons, List.countP_nil]
  · unfold pollUtscStatus
    by_cases hrun : st.runningUtsc = false
    · simp [hrun, noAutomaticRetry]
    · rw [if_neg hrun]
      cases st.selectedModem with
      | none => rfl
      | some modem =>
        simp [noAutomaticRetry, Effect.isReq, Effect.isTimerSchedule]

/-- Concrete check of C2: with live mode on, `onclose` schedules the
2000 ms reconnect timer. -/
theorem C2_reconnect_only_witness :
    utscOnClose { appStateInit with utscLiveMode := true } =
      ({ appStateInit with utscLiveMode := true },
        [Effect.setTimeoutE 2000 TimerTag.reconnect]) :=
  (C2_reconnect_only { appStateInit with utscLiveMode := true } FetchOutcome.thrown 0).1 rfl

/-- Once its guards pass, `startUtsc` issues the `/utsc/start` POST on
every outcome. -/
theorem startUtsc_emits_request (st : AppState) (modem : Modem)
    (o : FetchOutcome StartResult) (fo : FetchOutcome UtscDataResult) (now : Nat)
    (hm : st.selectedModem = some modem)
    (hrf : jsTruthyNat st.utscConfig.rfPortIfindex = true)
    (hip : jsOr modem.cmts_ip st.selectedCmts ≠ "") :
    Effect.request (startUtscPath modem.mac_address)
      (startUtscBody modem st.utscConfig (jsOr modem.cmts_ip st.selectedCmts)) ∈
      (startUtsc st o fo now).2 := by
  unfold startUtsc
  rw [hm]
  simp only [hrf, Bool.not_true, Bool.false_eq_true, if_false, if_neg hip]
  cases o with
  | thrown => simp
  | ok result =>
    dsimp only
    by_cases hs : result.success <;> simp [hs]

/-- C1: turning live monitoring on registers a 50000 ms interval; each
tick issues a new capture start request exactly when live mode is still
on and no measurement is in progress, and does nothing otherwise; and
the 50000 ms period is strictly less than the 55000 ms free-run
duration the start request carries (with the initial config). -/
theorem C1_auto_restart (st : AppState) (modem : Modem) (cs : Bool)
    (o : FetchOutcome StartResult) (fo : FetchOutcome UtscDataResult) (now : Nat) :
    (st.utscLiveMode = false → st.utscSciChart = true → st.utscSciChartSeries = true →
      Effect.setIntervalE 50000 TimerTag.autoRestart ∈ (toggleUtscLiveMode st cs).2) ∧
    (st.utscLiveMode = true → st.runningUtsc = false → st.selectedModem = some modem →
      jsTruthyNat st.utscConfig.rfPortIfindex = true →
      jsOr modem.cmts_ip st.selectedCmts ≠ "" →
      Effect.request (startUtscPath modem.mac_address)
        (startUtscBody modem st.utscConfig (jsOr modem.cmts_ip st.selectedCmts)) ∈
        (utscAutoRestartFire st o fo now).2) ∧
    ((st.utscLiveMode = false ∨ st.runningUtsc = true) →
      utscAutoRestartFire st o fo now = (st, [])) ∧
    (∀ m : Modem, ∀ ip : String,
      bodyLookup (startUtscBody m utscConfigInit ip) "freerun_duration_ms" =
        some (JsonVal.num 55000)) ∧
    50000 < 55000 := by
  refine ⟨?_, ?_, ?_, ?_, by omega⟩
  · intro hlm hc hcs
    simp [toggleUtscLiveMode, hlm, hc, hcs]
  · intro hl hr hm hrf hip
    simp only [utscAutoRestartFire, hl, hr, Bool.not_false, Bool.and_self, if_true]
    exact startUtsc_emits_request st modem o fo now hm hrf hip
  · rintro (h | h) <;> simp [utscAutoRestartFire, h]
  · intro m ip
    obtain ⟨mac, mip, cip, comm, tftp⟩ := m
    cases tftp <;> rfl

/-- Concrete check of C1: toggling live mode on (chart already
initialised) registers the 50000 ms auto-restart interval. -/
theorem C1_auto_restart_witness :
    Effect.setIntervalE 50000 TimerTag.autoRestart ∈
      (toggleUtscLiveMode
        { appStateInit with utscSciChart := true, utscSciChartSeries := true } false).2 :=
  (C1_auto_restart { appStateInit with utscSciChart := true, utscSciChartSeries := true }
    modemNoCommunity false FetchOutcome.thrown FetchOutcome.thrown 0).1 rfl rfl rfl

theorem updateBufferSize_lastUpdate (st : AppState) (b : Option Nat) :
    (updateBufferSize st b).utscLastUpdateTime = st.utscLastUpdateTime := by
  cases b <;> rfl

theorem updateBufferSize_throttle (st : AppState) (b : Option Nat) :
    (updateBufferSize st b).utscUpdateThrottle = st.utscUpdateThrottle := by
  cases b <;> rfl

theorem updateBufferSize_interactive (st : AppState) (b : Option Nat) :
    (updateBufferSize st b).utscInteractive = st.utscInteractive := by
  cases b <;> rfl

theorem updateBufferSize_plotImage (st : AppState) (b : Option Nat) :
    (updateBufferSize st b).utscPlotImage = st.utscPlotImage := by
  cases b <;> rfl

theorem updateBufferSize_spectrumData (st : AppState) (b : Option Nat) :
    (updateBufferSize st b).utscSpectrumData = st.utscSpectrumData := by
  cases b <;> rfl

/-- The message handler never changes the throttle setting. -/
theorem utscOnMessage_throttle_eq (st : AppState) (msg : WsMessage) (now : Nat) :
    (utscOnMessage st msg now).1.utscUpdateThrottle = st.utscUpdateThrottle := by
  cases msg with
  | spectrum b raw plot ts =>
    unfold utscOnMessage
    dsimp only
    by_cases hd : now - (updateBufferSize st b).utscLastUpdateTime <
        (updateBufferSize st b).utscUpdateThrottle
    · rw [if_pos hd]
      exact updateBufferSize_throttle st b
    · rw [if_neg hd]
      cases plot <;> simp [updateBufferSize_throttle]
  | buffering b m => simpa [utscOnMessage] using updateBufferSize_throttle st b
  | bufferingComplete m => rfl
  | heartbeat b => simpa [utscOnMessage] using updateBufferSize_throttle st b
  | errorMsg m => rfl
  | connected m => rfl
  | unparseable => rfl

/-- With a positive throttle the stored last-update time never moves
backwards. -/
theorem utscOnMessage_lastUpdate_mono (st : AppState) (msg : WsMessage) (now : Nat)
    (hpos : 0 < st.utscUpdateThrottle) :
    st.utscLastUpdateTime ≤ (utscOnMessage st msg now).1.utscLastUpdateTime := by
  cases msg with
  | spectrum b raw plot ts =>
    unfold utscOnMessage
    dsimp only
    by_cases hd : now - (updateBufferSize st b).utscLastUpdateTime <
        (updateBufferSize st b).utscUpdateThrottle
    · rw [if_pos hd, updateBufferSize_lastUpdate]
    · rw [if_neg hd]
      rw [updateBufferSize_lastUpdate, updateBufferSize_throttle] at hd
      have : st.utscLastUpdateTime ≤ now := by omega
      cases plot <;> simpa [updateBufferSize_lastUpdate]
  | buffering b m => simp [utscOnMessage, updateBufferSize_lastUpdate]
  | bufferingComplete m => exact Nat.le_refl _
  | heartbeat b => simp [utscOnMessage, updateBufferSize_lastUpdate]
  | errorMsg m => exact Nat.le_refl _
  | connected m => exact Nat.le_refl _
  | unparseable => exact Nat.le_refl _

/-- A frame that updates the interactive chart was accepted by the
throttle: the full throttle interval elapsed since the last applied
update, and the last-update time advances to `now`. -/
theorem utscOnMessage_chartUpdate_mem (st : AppState) (msg : WsMessage) (now : Nat)
    (hpos : 0 < st.utscUpdateThrottle)
    (h : Effect.chartUpdate ∈ (utscOnMessage st msg now).2) :
    st.utscLastUpdateTime + st.utscUpdateThrottle ≤ now ∧
    (utscOnMessage st msg now).1.utscLastUpdateTime = now := by
  cases msg with
  | spectrum b raw plot ts =>
    unfold utscOnMessage at h ⊢
    dsimp only at h ⊢
    by_cases hd : now - (updateBufferSize st b).utscLastUpdateTime <
        (updateBufferSize st b).utscUpdateThrottle
    · rw [if_pos hd] at h
      simp at h
    · rw [if_neg hd] at h ⊢
      rw [updateBufferSize_lastUpdate, updateBufferSize_throttle] at hd
      refine ⟨by omega, ?_⟩
      cases plot <;> simp
  | buffering b m => simp [utscOnMessage] at h
  | bufferingComplete m => simp [utscOnMessage] at h
  | heartbeat b => simp [utscOnMessage] at h
  | errorMsg m => simp [utscOnMessage] at h
  | connected m => simp [utscOnMessage] at h
  | unparseable => simp [utscOnMessage] at h

/-- Soundness of the chart-update trace: with a fixed positive throttle
`τ`, every recorded update time lies at least `τ` past the state's
last-update time, and consecutive recorded updates are at least `τ`
apart. -/
theorem chartUpdateTimes_sound (τ : Nat) (ms : List (WsMessage × Nat)) :
    ∀ st : AppState, st.utscUpdateThrottle = τ → 0 < τ →
    (∀ t ∈ chartUpdateTimes st ms, st.utscLastUpdateTime + τ ≤ t) ∧
    List.Chain' (fun a c => a + τ ≤ c) (chartUpdateTimes st ms) := by
  induction ms with
  | nil => intro st hτ hpos; simp [chartUpdateTimes]
  | cons m rest ih =>
    intro st hτ hpos
    have hpos' : 0 < st.utscUpdateThrottle := hτ ▸ hpos
    have hthr := utscOnMessage_throttle_eq st m.1 m.2
    unfold chartUpdateTimes
    by_cases hmem : Effect.chartUpdate ∈ (utscOnMessage st m.1 m.2).2
    · rw [if_pos hmem]
      obtain ⟨hbound, hlast⟩ := utscOnMessage_chartUpdate_mem st m.1 m.2 hpos' hmem
      obtain ⟨ihb, ihc⟩ := ih (utscOnMessage st m.1 m.2).1 (hthr.trans hτ) hpos
      rw [hτ] at hbound
      constructor
      · intro t ht
        rcases List.mem_cons.mp ht with rfl | ht
        · exact hbound
        · have hb := ihb t ht
          rw [hlast] at hb
          omega
      · rw [List.chain'_cons']
        refine ⟨?_, ihc⟩
        intro b hb
        have hb' := ihb b (List.mem_of_mem_head? hb)
        rw [hlast] at hb'
        exact hb'
    · rw [if_neg hmem]
      have hmono := utscOnMessage_lastUpdate_mono st m.1 m.2 hpos'
      obtain ⟨ihb, ihc⟩ := ih (utscOnMessage st m.1 m.2).1 (hthr.trans hτ) hpos
      refine ⟨?_, ihc⟩
      intro t ht
      have hb := ihb t ht
      omega

/-- C3: a `spectrum` frame arriving less than `utscUpdateThrottle`
(100 ms) after the last applied update is dropped: it changes neither
the stored plot image nor the last-update time and performs no chart
work; consequently, over any sequence of frames, two successive
interactive chart updates are never less than 100 ms apart. -/
theorem C3_throttled_updates (st : AppState) (ms : List (WsMessage × Nat))
    (b : Option Nat) (raw : Option RawData) (plot : Option PlotPayload) (ts now : Nat) :
    (now - st.utscLastUpdateTime < st.utscUpdateThrottle →
      (utscOnMessage st (WsMessage.spectrum b raw plot ts) now).1.utscPlotImage =
        st.utscPlotImage ∧
      (utscOnMessage st (WsMessage.spectrum b raw plot ts) now).1.utscLastUpdateTime =
        st.utscLastUpdateTime ∧
      (utscOnMessage st (WsMessage.spectrum b raw plot ts) now).2 = []) ∧
    (st.utscUpdateThrottle = 100 →
      List.Chain' (fun a c => a + 100 ≤ c) (chartUpdateTimes st ms)) := by
  constructor
  · intro hd
    have hd' : now - (updateBufferSize st b).utscLastUpdateTime <
        (updateBufferSize st b).utscUpdateThrottle := by
      rw [updateBufferSize_lastUpdate, updateBufferSize_throttle]; exact hd
    unfold utscOnMessage
    dsimp only
    rw [if_pos hd']
    exact ⟨updateBufferSize_plotImage st b, updateBufferSize_lastUpdate st b, rfl⟩
  · intro hτ
    exact (chartUpdateTimes_sound 100 ms st hτ (by omega)).2

/-- Concrete check of C3: a spectrum frame 50 ms after the last update
is dropped without touching the plot image. -/
theorem C3_throttled_updates_witness :
    (utscOnMessage appStateInit (WsMessage.spectrum none none none 0) 50).1.utscPlotImage =
      appStateInit.utscPlotImage ∧
    (utscOnMessage appStateInit (WsMessage.spectrum none none none 0) 50).2 = [] :=
  ⟨((C3_throttled_updates appStateInit [] none none none 0 50).1 (by decide)).1,
   ((C3_throttled_updates appStateInit [] none none none 0 50).1 (by decide)).2.2⟩

/-- C5: the handler dispatches on the frame's `type`: `buffering` and
`heartbeat` frames only update the buffer-size counter,
`buffering_complete` only emits a notification, and `error`,
`connected` and unparseable frames change nothing; no frame other than
`spectrum` touches the stored plot image, the spectrum data or the
chart; an accepted `spectrum` frame stores its plot payload. -/
theorem C5_message_dispatch (st : AppState) (now ts : Nat) (b : Option Nat)
    (raw : Option RawData) (om : Option String) (m : String) :
    (utscOnMessage st (WsMessage.buffering b om) now = (updateBufferSize st b, [])) ∧
    (utscOnMessage st (WsMessage.heartbeat b) now = (updateBufferSize st b, [])) ∧
    (utscOnMessage st (WsMessage.bufferingComplete m) now = (st, [Effect.toastSuccess m])) ∧
    (utscOnMessage st (WsMessage.errorMsg m) now = (st, [])) ∧
    (utscOnMessage st (WsMessage.connected m) now = (st, [])) ∧
    (utscOnMessage st WsMessage.unparseable now = (st, [])) ∧
    (updateBufferSize st b).utscPlotImage = st.utscPlotImage ∧
    (updateBufferSize st b).utscSpectrumData = st.utscSpectrumData ∧
    (∀ msg : WsMessage, (∀ b' raw' plot' ts', msg ≠ WsMessage.spectrum b' raw' plot' ts') →
      (utscOnMessage st msg now).1.utscPlotImage = st.utscPlotImage ∧
      (utscOnMessage st msg now).1.utscSpectrumData = st.utscSpectrumData ∧
      ((utscOnMessage st msg now).2.any Effect.isChartRender) = false) ∧
    (st.utscLastUpdateTime + st.utscUpdateThrottle ≤ now →
      ∀ pp : PlotPayload,
        (utscOnMessage st (WsMessage.spectrum b raw (some pp) ts) now).1.utscPlotImage =
          some (PlotImage.mk pp.data pp.filename ts)) := by
  refine ⟨rfl, rfl, rfl, rfl, rfl, rfl,
    updateBufferSize_plotImage st b, updateBufferSize_spectrumData st b, ?_, ?_⟩
  · intro msg hns
    cases msg with
    | spectrum b' raw' plot' ts' => exact absurd rfl (hns b' raw' plot' ts')
    | buffering b' om' =>
      exact ⟨updateBufferSize_plotImage st b', updateBufferSize_spectrumData st b', rfl⟩
    | bufferingComplete m' => exact ⟨rfl, rfl, rfl⟩
    | heartbeat b' =>
      exact ⟨updateBufferSize_plotImage st b', updateBufferSize_spectrumData st b', rfl⟩
    | errorMsg m' => exact ⟨rfl, rfl, rfl⟩
    | connected m' => exact ⟨rfl, rfl, rfl⟩
    | unparseable => exact ⟨rfl, rfl, rfl⟩
  · intro hacc pp
    have hd : ¬ (now - (updateBufferSize st b).utscLastUpdateTime <
        (updateBufferSize st b).utscUpdateThrottle) := by
      rw [updateBufferSize_lastUpdate, updateBufferSize_throttle]
      omega
    unfold utscOnMessage
    dsimp only
    rw [if_neg hd]

/-- Concrete check of C5: a heartbeat frame only updates the buffer
counter; an accepted spectrum frame stores its plot payload. -/
theorem C5_message_dispatch_witness :
    (utscOnMessage appStateInit (WsMessage.heartbeat (some 7)) 0).1.utscPlotImage =
      appStateInit.utscPlotImage ∧
    (utscOnMessage appStateInit
        (WsMessage.spectrum none none (some ⟨"img64", "f.png"⟩) 3) 100).1.utscPlotImage =
      some (PlotImage.mk "img64" "f.png" 3) :=
  ⟨((C5_message_dispatch appStateInit 0 0 (some 7) none none "").2.2.2.2.2.2.2.2.1
      (WsMessage.heartbeat (some 7)) (fun _ _ _ _ h => nomatch h)).1,
   (C5_message_dispatch appStateInit 100 3 none none none "").2.2.2.2.2.2.2.2.2
      (by decide) ⟨"img64", "f.png"⟩⟩

theorem jsOr_ne_empty (v : Option String) (d : String) (h : d ≠ "") :
    jsOr v d ≠ "" := by
  cases v with
  | none => exact h
  | some s =>
    simp only [jsOr]
    split
    · exact h
    · next hs => exact hs

theorem jsOrS_ne_empty (v d : String) (h : d ≠ "") : jsOrS v d ≠ "" := by
  unfold jsOrS
  by_cases hv : v = ""
  · rw [if_pos hv]; exact h
  · rw [if_neg hv]; exact hv

/-- C7 counterexample: the claim says that whenever the selected modem
record has no `cmts_community` field, a fixed default community string
is substituted into the request body.  The channel-stats request of
`loadSystemInfo` instead takes the community from the user-editable
`snmpCommunityModem` setting, so for a modem without `cmts_community`
no single fixed string is always sent: two different settings produce
two different community values. -/
theorem C7_counterexample :
    modemNoCommunity.cmts_community = none ∧
    ¬ ∃ d : String, ∀ snmp : String,
        bodyLookup (channelStatsBody modemNoCommunity snmp) "community" =
          some (JsonVal.str d) := by
  refine ⟨rfl, ?_⟩
  rintro ⟨d, h⟩
  have e1 : bodyLookup (channelStatsBody modemNoCommunity "a") "community" =
      some (JsonVal.str "a") := rfl
  have e2 : bodyLookup (channelStatsBody modemNoCommunity "b") "community" =
      some (JsonVal.str "b") := rfl
  have h1 := (h "a").symm.trans e1
  have h2 := (h "b").symm.trans e2
  injection h1 with h1
  injection h1 with h1
  injection h2 with h2
  injection h2 with h2
  rw [h1] at h2
  exact absurd h2 (by decide)

/-- C7 (amended): every modelled measurement request carries the
modem's MAC address in its URL path and a non-empty `community` string
in its JSON body; the UTSC requests take it from the modem record's
`cmts_community`, each endpoint substituting its own fixed default when
that field is missing or empty; the channel-stats request takes it from
the `snmpCommunityModem` setting, substituting a fixed default when
that setting is empty. -/
theorem C7_community_always_present (modem : Modem) (cfg : UtscConfig)
    (cmtsIp snmp : String) :
    (modem.mac_address.data <:+: (startUtscPath modem.mac_address).data) ∧
    (modem.mac_address.data <:+: (stopUtscPath modem.mac_address).data) ∧
    (modem.mac_address.data <:+: (utscStatusPath modem.mac_address).data) ∧
    (modem.mac_address.data <:+: (utscDataPath modem.mac_address).data) ∧
    (modem.mac_address.data <:+: (channelStatsPath modem.mac_address).data) ∧
    (∃ s, bodyLookup (startUtscBody modem cfg cmtsIp) "community" =
        some (JsonVal.str s) ∧ s ≠ "") ∧
    (∃ s, bodyLookup (stopUtscBody modem cfg) "community" =
        some (JsonVal.str s) ∧ s ≠ "") ∧
    (∃ s, bodyLookup (utscStatusBody modem cfg) "community" =
        some (JsonVal.str s) ∧ s ≠ "") ∧
    (∃ s, bodyLookup (utscDataBody modem cfg) "community" =
        some (JsonVal.str s) ∧ s ≠ "") ∧
    (∃ s, bodyLookup (channelStatsBody modem snmp) "community" =
        some (JsonVal.str s) ∧ s ≠ "") ∧
    (jsTruthyStr modem.cmts_community = false →
      bodyLookup (startUtscBody modem cfg cmtsIp) "community" =
        some (JsonVal.str "Z1gg0Sp3c1@l") ∧
      bodyLookup (stopUtscBody modem cfg) "community" =
        some (JsonVal.str "Z1gg0Sp3c1@l") ∧
      bodyLookup (utscStatusBody modem cfg) "community" =
        some (JsonVal.str "Z1gg0@LL") ∧
      bodyLookup (utscDataBody modem cfg) "community" =
        some (JsonVal.str "Z1gg0Sp3c1@l")) ∧
    (snmp = "" →
      bodyLookup (channelStatsBody modem snmp) "community" =
        some (JsonVal.str "z1gg0m0n1t0r1ng")) := by
  obtain ⟨mac, mip, cip, comm, tftp⟩ := modem
  have hstart : bodyLookup (startUtscBody ⟨mac, mip, cip, comm, tftp⟩ cfg cmtsIp)
      "community" = some (JsonVal.str (jsOr comm "Z1gg0Sp3c1@l")) := rfl
  have hstop : bodyLookup (stopUtscBody ⟨mac, mip, cip, comm, tftp⟩ cfg)
      "community" = some (JsonVal.str (jsOr comm "Z1gg0Sp3c1@l")) := by
    cases cip <;> rfl
  have hstatus : bodyLookup (utscStatusBody ⟨mac, mip, cip, comm, tftp⟩ cfg)
      "community" = some (JsonVal.str (jsOr comm "Z1gg0@LL")) := by
    cases cip <;> rfl
  have hdata : bodyLookup (utscDataBody ⟨mac, mip, cip, comm, tftp⟩ cfg)
      "community" = some (JsonVal.str (jsOr comm "Z1gg0Sp3c1@l")) := by
    cases cip <;> rfl
  have hstats : bodyLookup (channelStatsBody ⟨mac, mip, cip, comm, tftp⟩ snmp)
      "community" = some (JsonVal.str (jsOrS snmp "z1gg0m0n1t0r1ng")) := rfl
  have hcommDefault : jsTruthyStr comm = false → jsOr comm "Z1gg0Sp3c1@l" = "Z1gg0Sp3c1@l" ∧
      jsOr comm "Z1gg0@LL" = "Z1gg0@LL" := by
    intro hc
    cases comm with
    | none => exact ⟨rfl, rfl⟩
    | some s =>
      simp only [jsTruthyStr, bne_eq_false_iff_eq] at hc
      simp [jsOr, hc]
  refine ⟨⟨"/api/pypnm/upstream/utsc/start/".data, [], by simp [startUtscPath, String.data_append]⟩,
    ⟨"/api/pypnm/upstream/utsc/stop/".data, [], by simp [stopUtscPath, String.data_append]⟩,
    ⟨"/api/pypnm/upstream/utsc/status/".data, [], by simp [utscStatusPath, String.data_append]⟩,
    ⟨"/api/pypnm/upstream/utsc/data/".data, [], by simp [utscDataPath, String.data_append]⟩,
    ⟨"/api/pypnm/modem/".data, "/channel-stats".data,
      by simp [channelStatsPath, String.data_append]⟩,
    ⟨jsOr comm "Z1gg0Sp3c1@l", hstart, jsOr_ne_empty comm _ (by decide)⟩,
    ⟨jsOr comm "Z1gg0Sp3c1@l", hstop, jsOr_ne_empty comm _ (by decide)⟩,
    ⟨jsOr comm "Z1gg0@LL", hstatus, jsOr_ne_empty comm _ (by decide)⟩,
    ⟨jsOr comm "Z1gg0Sp3c1@l", hdata, jsOr_ne_empty comm _ (by decide)⟩,
    ⟨jsOrS snmp "z1gg0m0n1t0r1ng", hstats, jsOrS_ne_empty snmp _ (by decide)⟩,
    ?_, ?_⟩
  · intro hc
    obtain ⟨h1, h2⟩ := hcommDefault hc
    exact ⟨by rw [hstart, h1], by rw [hstop, h1], by rw [hstatus, h2], by rw [hdata, h1]⟩
  · intro hsnmp
    rw [hstats]
    simp [jsOrS, hsnmp]

/-- Concrete check of C7 (amended): a modem without `cmts_community`
gets the fixed start-endpoint default. -/
theorem C7_community_always_present_witness :
    bodyLookup (startUtscBody modemNoCommunity utscConfigInit "172.16.0.1") "community" =
      some (JsonVal.str "Z1gg0Sp3c1@l") :=
  ((C7_community_always_present modemNoCommunity utscConfigInit "172.16.0.1" "").2.2.2.2.2.2.2.2.2.2.1
    rfl).1
